import Mathlib

-- Verification of the audio-video-editor MCP bridge.
--
-- The development shallowly embeds the two source files of the repository:
--   mcp_client.py : the stdio MCP client (tool discovery, per-tool proxies,
--                   the interactive Driver loop),
--   mcp_server.py : the FastMCP server of twelve media-editing tools.
--
-- Modelling conventions:
--   * The transport (the mcp library object session) is a parameter of type
--     Session; an Except.error from it models a raised transport exception,
--     an Except.ok models a delivered response.  The list of Invocation
--     values returned alongside each call result is the wire log: one entry
--     per call of session.call_tool (the transport call counter of the spec).
--   * The Media Engine (ffmpeg / yt_dlp) is an external collaborator; the
--     body of each try block on the server is modelled as one engine
--     invocation whose outcome, EngineOutcome, is a parameter: ok means the
--     engine produced the output file, raised msg means the body raised an
--     exception with message msg.  The bytes the engine writes are abstracted
--     by tagged strings (transcoding semantics are out of scope).
--   * The shared output directory is a Disk : String to Option String map
--     from entry names to contents.
--   * create_gif is the one tool whose try body fails at the Python level
--     before the engine runs (the dangling .filter attribute access), so its
--     fluent chain is embedded attribute-by-attribute with a tiny model of
--     Python attribute lookup (PyObj, pyGetAttr).
--   * Python str.lower is modelled by mapping Char.toLower over the
--     characters; the two agree on the ASCII termination tokens at issue.

-- ===================== client data model (mcp_client.py) =====================

-- an argument mapping, the kwargs of a proxy call
abbrev ArgMap := List (String × String)

-- a parameter default as carried by a discovered schema
inductive PVal where
  | str (s : String)
  | int (n : Int)
deriving DecidableEq

structure ParamSpec where
  name : String
  required : Bool
  defaultVal : Option PVal
deriving DecidableEq

-- one entry of the discovered tool catalog (session.list_tools().tools)
structure ToolDescriptor where
  name : String
  description : Option String
  params : List ParamSpec
deriving DecidableEq

-- the frame sent on the wire by session.call_tool(tool_name, arguments=kwargs)
structure Invocation where
  tool_name : String
  arguments : ArgMap
deriving DecidableEq

-- the response object: result.content as a list of text blocks
structure CallResponse where
  content : List String
deriving DecidableEq

-- the transport: Except.error e models session.call_tool raising e
abbrev Session := Invocation → Except String CallResponse

-- the inner call_tool of setup_mcp_client together with its sync lambda
-- wrapper: it builds the Invocation, performs exactly one transport call,
-- and unwraps result.content[0].text if result.content else "No result".
-- The first component is the wire log of the call.
def call_tool (session : Session) (tool_name : String) (kwargs : ArgMap) :
    List Invocation × Except String String :=
  ([{ tool_name := tool_name, arguments := kwargs }],
    match session { tool_name := tool_name, arguments := kwargs } with
    | Except.error e => Except.error e
    | Except.ok r =>
        Except.ok (match r.content with
          | [] => "No result"
          | t :: _ => t))

-- the langchain Tool record built for each discovered descriptor
structure Tool where
  name : String
  description : String
  func : ArgMap → List Invocation × Except String String

-- Python: tool.description or f"Tool: {tool.name}" (None and "" are falsy)
def pyOrDescription : Option String → String → String
  | none, n => "Tool: " ++ n
  | some d, n => if d = "" then "Tool: " ++ n else d

-- the registry-building loop of setup_mcp_client.  The loop rebinds the
-- variables tool and call_tool on every iteration, but both the inner
-- function and the lambda capture the tool name through a default argument
-- (tool_name=tool.name, tn=tool.name) which Python evaluates at definition
-- time, and every per-iteration call_tool body is identical and receives the
-- name explicitly; so each built Tool invokes the shared call_tool at the
-- name of its own descriptor.
def setup_mcp_client (session : Session) (tools_list : List ToolDescriptor) :
    List Tool :=
  tools_list.map (fun tool =>
    { name := tool.name
      description := pyOrDescription tool.description tool.name
      func := fun kwargs => call_tool session tool.name kwargs })

-- concrete transports used by concrete evaluations
def session0 : Session := fun _ => Except.ok { content := ["ok"] }

def failSession : Session := fun _ => Except.error "BrokenPipeError"

-- whether the caller received a delivered outcome value (as opposed to a
-- raised exception)
def isDelivered : Except String String → Bool
  | Except.ok _ => true
  | Except.error _ => false

-- ============ the discovered catalog, from the mcp_server.py signatures ============
-- One descriptor per @mcp.tool() function; a parameter is required exactly
-- when its Python parameter has no default.  Docstrings are abbreviated to
-- their summary line.

def download_youtube_video_descriptor : ToolDescriptor :=
  { name := "download_youtube_video"
    description := some "Download a YouTube video"
    params := [
      { name := "url", required := true, defaultVal := none },
      { name := "output_name", required := false,
        defaultVal := some (PVal.str "downloaded_video.mp4") }] }

def trim_video_descriptor : ToolDescriptor :=
  { name := "trim_video"
    description := some "Trim a video file based on start and end time timestamps."
    params := [
      { name := "input_path", required := true, defaultVal := none },
      { name := "start_time", required := true, defaultVal := none },
      { name := "end_time", required := true, defaultVal := none },
      { name := "output_name", required := false,
        defaultVal := some (PVal.str "trimmed_video.mp4") }] }

def merge_videos_descriptor : ToolDescriptor :=
  { name := "merge_videos"
    description := some "Merge multiple video files into one single video file."
    params := [
      { name := "input_path1", required := true, defaultVal := none },
      { name := "input_path2", required := true, defaultVal := none },
      { name := "output_name", required := false,
        defaultVal := some (PVal.str "merged_video.mp4") }] }

def extract_audio_descriptor : ToolDescriptor :=
  { name := "extract_audio"
    description := some "Extract audio from a video file."
    params := [
      { name := "input_path", required := true, defaultVal := none },
      { name := "output_name", required := false,
        defaultVal := some (PVal.str "extracted_audio.mp3") }] }

def trim_audio_descriptor : ToolDescriptor :=
  { name := "trim_audio"
    description := some "Trim an audio file based on start and end time timestamps."
    params := [
      { name := "input_path", required := true, defaultVal := none },
      { name := "start_time", required := true, defaultVal := none },
      { name := "end_time", required := true, defaultVal := none },
      { name := "output_name", required := false,
        defaultVal := some (PVal.str "trimmed_audio.mp3") }] }

def convert_video_format_descriptor : ToolDescriptor :=
  { name := "convert_video_format"
    description := some "Convert a video file to a different format."
    params := [
      { name := "input_path", required := true, defaultVal := none },
      { name := "output_format", required := false,
        defaultVal := some (PVal.str "avi") },
      { name := "output_name", required := false,
        defaultVal := some (PVal.str "converted_video") }] }

def add_watermark_descriptor : ToolDescriptor :=
  { name := "add_watermark"
    description := some "Add a watermark to a video file."
    params := [
      { name := "input_path", required := true, defaultVal := none },
      { name := "watermark_path", required := true, defaultVal := none },
      { name := "position", required := false,
        defaultVal := some (PVal.str "10:10") },
      { name := "output_name", required := false,
        defaultVal := some (PVal.str "watermarked_video.mp4") }] }

def extract_frames_descriptor : ToolDescriptor :=
  { name := "extract_frames"
    description := some "Extract frames from a video file at specified intervals."
    params := [
      { name := "input_path", required := true, defaultVal := none },
      { name := "interval", required := false, defaultVal := some (PVal.int 1) },
      { name := "output_dir_name", required := false,
        defaultVal := some (PVal.str "extracted_frames") }] }

def change_audio_speed_descriptor : ToolDescriptor :=
  { name := "change_audio_speed"
    description := some "Change the speed of an audio file."
    params := [
      { name := "input_path", required := true, defaultVal := none },
      { name := "speed_factor", required := true, defaultVal := none },
      { name := "output_name", required := false,
        defaultVal := some (PVal.str "speed_changed_audio.mp3") }] }

def change_video_speed_descriptor : ToolDescriptor :=
  { name := "change_video_speed"
    description := some "Change the speed of a video file."
    params := [
      { name := "input_path", required := true, defaultVal := none },
      { name := "speed_factor", required := true, defaultVal := none },
      { name := "output_name", required := false,
        defaultVal := some (PVal.str "speed_changed_video.mp4") }] }

def mute_video_audio_descriptor : ToolDescriptor :=
  { name := "mute_video_audio"
    description := some "Mute the audio of a video file."
    params := [
      { name := "input_path", required := true, defaultVal := none },
      { name := "output_name", required := false,
        defaultVal := some (PVal.str "muted_video.mp4") }] }

def create_gif_descriptor : ToolDescriptor :=
  { name := "create_gif"
    description := some "Create a GIF from a segment of a video file."
    params := [
      { name := "input_path", required := true, defaultVal := none },
      { name := "start_time", required := true, defaultVal := none },
      { name := "duration", required := true, defaultVal := none },
      { name := "fps", required := false, defaultVal := some (PVal.int 10) },
      { name := "width", required := false, defaultVal := some (PVal.int 480) },
      { name := "output_name", required := false,
        defaultVal := some (PVal.str "output.gif") }] }

-- the catalog in registration order
def serverCatalog : List ToolDescriptor :=
  [download_youtube_video_descriptor, trim_video_descriptor,
   merge_videos_descriptor, extract_audio_descriptor, trim_audio_descriptor,
   convert_video_format_descriptor, add_watermark_descriptor,
   extract_frames_descriptor, change_audio_speed_descriptor,
   change_video_speed_descriptor, mute_video_audio_descriptor,
   create_gif_descriptor]

-- ===================== the Driver loop (mcp_client.py, __main__) =====================

-- Python str.lower, mapped characterwise; Char.toLower agrees with CPython
-- on the ASCII letters of the termination tokens.
def pyLower (s : String) : String := String.mk (s.data.map Char.toLower)

-- user_input.lower() in [quit, exit, q]
def isQuitLine (s : String) : Bool :=
  pyLower s == "quit" || pyLower s == "exit" || pyLower s == "q"

-- one iteration of the interactive loop, as scripted input: the line typed
-- at the prompt, the outcome of asyncio.run(run_agent(line)) (Except.error e
-- models the agent or one of its tool proxies raising e), and the number of
-- Invocations dispatched during that agent run.
structure LoopEvent where
  line : String
  agentOutcome : Except String String
  sentInvocations : Nat

-- the while True loop: break on a quit token before running the agent;
-- otherwise run the agent inside try/except, printing the rendered result or
-- "Error: " followed by str(e), then loop.  Returns the printed lines and
-- the total number of Invocations sent from this point of the script on.
def driverLoop : List LoopEvent → List String × Nat
  | [] => ([], 0)
  | ev :: rest =>
    if isQuitLine ev.line then ([], 0)
    else
      ((match ev.agentOutcome with
        | Except.ok r => "Result: " ++ r
        | Except.error e => "Error: " ++ e) :: (driverLoop rest).1,
       ev.sentInvocations + (driverLoop rest).2)

-- ===================== server data model (mcp_server.py) =====================

-- the shared OUTPUT_DIR, entry name to contents
abbrev Disk := String → Option String

def emptyDisk : Disk := fun _ => none

def getFile (d : Disk) (n : String) : Option String := d n

def setFile (d : Disk) (n c : String) : Disk :=
  fun m => if m = n then some c else d m

def removeFile (d : Disk) (n : String) : Disk :=
  fun m => if m = n then none else d m

-- str(OUTPUT_DIR / name)
def outputsPath (n : String) : String := "outputs/" ++ n

-- outcome of the external-engine step inside a try block
inductive EngineOutcome where
  | ok
  | raised (msg : String)
deriving DecidableEq

-- abstract engine output bytes, tagged by the command shape
def engineData (tag : String) (args : List String) : String :=
  tag ++ "(" ++ String.intercalate ", " args ++ ")"

-- the manifest written by merge_videos: one line per input,
-- f"file \x27\x7bpath\x7d\x27\n"
def fileListData (p1 p2 : String) : String :=
  "file \x27" ++ p1 ++ "\x27\n" ++ "file \x27" ++ p2 ++ "\x27\n"

def download_youtube_video (url output_name : String)
    (eng : EngineOutcome) (d : Disk) : Disk × String :=
  match eng with
  | EngineOutcome.raised e => (d, "Error downloading video: " ++ e)
  | EngineOutcome.ok =>
      (setFile d output_name (engineData "ytdlp" [url]),
       outputsPath output_name)

def trim_video (input_path start_time end_time output_name : String)
    (eng : EngineOutcome) (d : Disk) : Disk × String :=
  match eng with
  | EngineOutcome.raised e => (d, "Error trimming video: " ++ e)
  | EngineOutcome.ok =>
      (setFile d output_name
        (engineData "trim" [input_path, start_time, end_time]),
       outputsPath output_name)

-- merge_videos first opens OUTPUT_DIR/file_list.txt in "w" mode and writes
-- the manifest, then runs the engine, and removes the manifest only after a
-- successful run; the except branch leaves it on disk.
def merge_videos (input_path1 input_path2 output_name : String)
    (eng : EngineOutcome) (d : Disk) : Disk × String :=
  let d1 := setFile d "file_list.txt" (fileListData input_path1 input_path2)
  match eng with
  | EngineOutcome.raised e => (d1, "Error merging videos: " ++ e)
  | EngineOutcome.ok =>
      (removeFile
        (setFile d1 output_name
          (engineData "concat" [input_path1, input_path2]))
        "file_list.txt",
       outputsPath output_name)

def extract_audio (input_path output_name : String)
    (eng : EngineOutcome) (d : Disk) : Disk × String :=
  match eng with
  | EngineOutcome.raised e => (d, "Error extracting audio: " ++ e)
  | EngineOutcome.ok =>
      (setFile d output_name (engineData "mp3" [input_path]),
       outputsPath output_name)

def trim_audio (input_path start_time end_time output_name : String)
    (eng : EngineOutcome) (d : Disk) : Disk × String :=
  match eng with
  | EngineOutcome.raised e => (d, "Error trimming audio: " ++ e)
  | EngineOutcome.ok =>
      (setFile d output_name
        (engineData "trimaudio" [input_path, start_time, end_time]),
       outputsPath output_name)

-- writes OUTPUT_DIR / f"\x7boutput_name\x7d.\x7boutput_format\x7d"
def convert_video_format (input_path output_format output_name : String)
    (eng : EngineOutcome) (d : Disk) : Disk × String :=
  match eng with
  | EngineOutcome.raised e => (d, "Error converting video format: " ++ e)
  | EngineOutcome.ok =>
      (setFile d (output_name ++ "." ++ output_format)
        (engineData "convert" [input_path, output_format]),
       outputsPath (output_name ++ "." ++ output_format))

def add_watermark (input_path watermark_path position output_name : String)
    (eng : EngineOutcome) (d : Disk) : Disk × String :=
  match eng with
  | EngineOutcome.raised e => (d, "Error adding watermark: " ++ e)
  | EngineOutcome.ok =>
      (setFile d output_name
        (engineData "overlay" [input_path, watermark_path, position]),
       outputsPath output_name)

-- output_dir.mkdir(parents=True, exist_ok=True) runs before the try block,
-- so the directory entry is ensured even when the engine step raises; the
-- extracted frames live inside that single top-level entry.
def extract_frames (input_path : String) (interval : Int)
    (output_dir_name : String) (eng : EngineOutcome) (d : Disk) :
    Disk × String :=
  let d1 :=
    match d output_dir_name with
    | some _ => d
    | none => setFile d output_dir_name (engineData "mkdir" [])
  match eng with
  | EngineOutcome.raised e => (d1, "Error extracting frames: " ++ e)
  | EngineOutcome.ok =>
      (setFile d1 output_dir_name
        (engineData "frames" [input_path, toString interval]),
       outputsPath output_dir_name)

-- speed_factor is a Python float used only to build the engine command; it
-- is carried as an uninterpreted token.
def change_audio_speed (input_path speed_factor output_name : String)
    (eng : EngineOutcome) (d : Disk) : Disk × String :=
  match eng with
  | EngineOutcome.raised e => (d, "Error changing audio speed: " ++ e)
  | EngineOutcome.ok =>
      (setFile d output_name
        (engineData "atempo" [input_path, speed_factor]),
       outputsPath output_name)

def change_video_speed (input_path speed_factor output_name : String)
    (eng : EngineOutcome) (d : Disk) : Disk × String :=
  match eng with
  | EngineOutcome.raised e => (d, "Error changing video speed: " ++ e)
  | EngineOutcome.ok =>
      (setFile d output_name
        (engineData "setpts" [input_path, speed_factor]),
       outputsPath output_name)

def mute_video_audio (input_path output_name : String)
    (eng : EngineOutcome) (d : Disk) : Disk × String :=
  match eng with
  | EngineOutcome.raised e => (d, "Error muting video audio: " ++ e)
  | EngineOutcome.ok =>
      (setFile d output_name (engineData "an" [input_path]),
       outputsPath output_name)

-- ---------- create_gif and its malformed fluent chain ----------

-- a minimal model of the Python objects met along the chain: the ffmpeg
-- stream, and a bound method obtained by an attribute access on it
inductive PyObj where
  | stream (spec : String)
  | boundMethod (recv : String) (meth : String)
deriving DecidableEq

-- Python attribute lookup along the chain: a stream exposes a filter
-- method; a bound method forwards attribute lookup to its function object,
-- which has no filter attribute, so the access raises AttributeError.
def pyGetAttr : PyObj → String → Except String PyObj
  | PyObj.stream spec, attr =>
      if attr = "filter" then Except.ok (PyObj.boundMethod spec "filter")
      else Except.error
        ("AttributeError: \x27Stream\x27 object has no attribute \x27"
          ++ attr ++ "\x27")
  | PyObj.boundMethod _ _, attr =>
      Except.error
        ("AttributeError: \x27function\x27 object has no attribute \x27"
          ++ attr ++ "\x27")

-- calling a bound filter method with a filter name and argument
def pyCallFilter : PyObj → String → String → Except String PyObj
  | PyObj.boundMethod recv _, fname, arg =>
      Except.ok (PyObj.stream (recv ++ "|" ++ fname ++ "=" ++ arg))
  | PyObj.stream _, _, _ =>
      Except.error "TypeError: \x27Stream\x27 object is not callable"

-- the message of the exception the chain actually raises
def gifAttrError : String :=
  "AttributeError: \x27function\x27 object has no attribute \x27filter\x27"

-- the source chain is
--   ffmpeg.input(input_path, ss=start_time, t=duration)
--     .filter            <- dangling attribute access, yields a bound method
--     .filter(scale, width, -1)   <- attribute lookup on the bound method
-- so the second .filter lookup raises AttributeError inside the try block
-- before .output or .run can execute; the except branch returns the error
-- text and nothing is written.
def create_gif (input_path start_time duration : String) (fps width : Int)
    (output_name : String) (eng : EngineOutcome) (d : Disk) : Disk × String :=
  match
    (do
      let m ← pyGetAttr
        (PyObj.stream (engineData "input" [input_path, start_time, duration]))
        "filter"
      let m2 ← pyGetAttr m "filter"
      pyCallFilter m2 "scale" (toString width) : Except String PyObj)
  with
  | Except.error e => (d, "Error creating GIF: " ++ e)
  | Except.ok _ =>
      match eng with
      | EngineOutcome.raised e => (d, "Error creating GIF: " ++ e)
      | EngineOutcome.ok =>
          (setFile d output_name
            (engineData "gif"
              [input_path, start_time, duration, toString fps, toString width]),
           outputsPath output_name)

-- ---------- a uniform view of the twelve registered operations ----------

inductive OpCall where
  | download (url output_name : String)
  | trim (input_path start_time end_time output_name : String)
  | merge (input_path1 input_path2 output_name : String)
  | audioExtract (input_path output_name : String)
  | audioTrim (input_path start_time end_time output_name : String)
  | convert (input_path output_format output_name : String)
  | watermark (input_path watermark_path position output_name : String)
  | frames (input_path : String) (interval : Int) (output_dir_name : String)
  | audioSpeed (input_path speed_factor output_name : String)
  | videoSpeed (input_path speed_factor output_name : String)
  | mute (input_path output_name : String)
  | gif (input_path start_time duration : String) (fps width : Int)
        (output_name : String)
deriving DecidableEq

def runOp : OpCall → EngineOutcome → Disk → Disk × String
  | OpCall.download u o, eng, d => download_youtube_video u o eng d
  | OpCall.trim i st et o, eng, d => trim_video i st et o eng d
  | OpCall.merge a b o, eng, d => merge_videos a b o eng d
  | OpCall.audioExtract i o, eng, d => extract_audio i o eng d
  | OpCall.audioTrim i st et o, eng, d => trim_audio i st et o eng d
  | OpCall.convert i f o, eng, d => convert_video_format i f o eng d
  | OpCall.watermark i w p o, eng, d => add_watermark i w p o eng d
  | OpCall.frames i iv o, eng, d => extract_frames i iv o eng d
  | OpCall.audioSpeed i f o, eng, d => change_audio_speed i f o eng d
  | OpCall.videoSpeed i f o, eng, d => change_video_speed i f o eng d
  | OpCall.mute i o, eng, d => mute_video_audio i o eng d
  | OpCall.gif i st du f w o, eng, d => create_gif i st du f w o eng d

-- the output-directory entries an operation may touch
def writeSet : OpCall → List String
  | OpCall.download _ o => [o]
  | OpCall.trim _ _ _ o => [o]
  | OpCall.merge _ _ o => ["file_list.txt", o]
  | OpCall.audioExtract _ o => [o]
  | OpCall.audioTrim _ _ _ o => [o]
  | OpCall.convert _ f o => [o ++ "." ++ f]
  | OpCall.watermark _ _ _ o => [o]
  | OpCall.frames _ _ o => [o]
  | OpCall.audioSpeed _ _ o => [o]
  | OpCall.videoSpeed _ _ o => [o]
  | OpCall.mute _ o => [o]
  | OpCall.gif _ _ _ _ _ o => [o]

-- an output directory that already holds a file named file_list.txt
def diskBefore : Disk :=
  fun n => if n = "file_list.txt" then some "precious" else none

-- ===================== helper lemmas =====================

theorem strAppendAssoc (a b c : String) : a ++ b ++ c = a ++ (b ++ c) := by
  cases a with | mk la =>
  cases b with | mk lb =>
  cases c with | mk lc =>
  show String.mk (la ++ lb ++ lc) = String.mk (la ++ (lb ++ lc))
  exact congrArg String.mk (List.append_assoc la lb lc)

theorem getFile_setFile_self (d : Disk) (o c : String) :
    getFile (setFile d o c) o = some c := by
  simp [getFile, setFile]

theorem getFile_removeFile_self (d : Disk) (o : String) :
    getFile (removeFile d o) o = none := by
  simp [getFile, removeFile]

-- ===================== C1 =====================

/-- Claim C1: for every discovered tool catalog, each proxy built by
setup_mcp_client captures its own tool name by value at creation time, so
invoking the proxy for descriptor i sends an Invocation whose tool_name is
the name of descriptor i; in particular no proxy invokes the name of the
last-registered tool instead of its own.  The default-argument idiom of the
source (tool_name=tool.name, tn=tool.name) evaluates the loop variable at
closure-creation time, which the embedding reflects. -/
theorem c1_proxy_captures_own_name (session : Session)
    (tools_list : List ToolDescriptor) (i : Nat) (h : i < tools_list.length)
    (h2 : i < (setup_mcp_client session tools_list).length) (kwargs : ArgMap) :
    (((setup_mcp_client session tools_list)[i]).func kwargs).1
      = [{ tool_name := (tools_list[i]).name, arguments := kwargs }] := by
  simp [setup_mcp_client, call_tool, List.getElem_map]

/-- Witness for C1: the first proxy built over the discovered server catalog
sends the name of the first descriptor, download_youtube_video, not the name
of the last-registered tool. -/
theorem c1_witness :
    (((setup_mcp_client session0 serverCatalog).get ⟨0, by decide⟩).func []).1
      = [{ tool_name := "download_youtube_video", arguments := [] }] :=
  c1_proxy_captures_own_name session0 serverCatalog 0 (by decide) (by decide) []

-- ===================== C2 =====================

/-- Counterexample to C2 as stated: trim_video is a discovered tool whose
schema requires input_path and declares a default for output_name, yet
invoking its proxy path with an empty argument mapping produces one
transport call, not zero, and the frame sent carries the empty mapping
verbatim, with no default filled in. -/
theorem c2_counterexample :
    ((call_tool session0 "trim_video" []).1.length = 1)
    ∧ ((call_tool session0 "trim_video" []).1
        = [{ tool_name := "trim_video", arguments := [] }])
    ∧ (trim_video_descriptor ∈ serverCatalog)
    ∧ ({ name := "input_path", required := true, defaultVal := none }
        ∈ trim_video_descriptor.params)
    ∧ ({ name := "output_name", required := false,
          defaultVal := some (PVal.str "trimmed_video.mp4") }
        ∈ trim_video_descriptor.params)
    ∧ (([] : ArgMap).lookup "input_path" = none)
    ∧ ((1 : Nat) ≠ 0) := by
  refine ⟨rfl, rfl, by decide, by decide, by decide, rfl, by decide⟩

/-- C2 amended: invoking a tool proxy performs no local validation against
the parameter schema and no default filling; every invocation results in
exactly one transport call whose frame carries the tool name and the
argument mapping of the caller verbatim, regardless of which required
parameters are missing. -/
theorem c2_no_local_validation (session : Session) (tool_name : String)
    (kwargs : ArgMap) :
    (call_tool session tool_name kwargs).1
      = [{ tool_name := tool_name, arguments := kwargs }] := rfl

-- ===================== C3 =====================

/-- Claim C3: for every server tool, whenever the body of its try block
raises (for example on a bad input path), the tool returns a reason string
beginning with Error rather than letting the exception propagate; runOp is
total into Disk times String, so no exception ever reaches the Driver.  For
create_gif the returned text reports the AttributeError its chain raises
before the engine runs. -/
theorem c3_engine_exceptions_become_error_strings (op : OpCall) (e : String)
    (d : Disk) :
    ∃ rest, (runOp op (EngineOutcome.raised e) d).2 = "Error" ++ rest := by
  cases op with
  | download u o =>
      exact ⟨" downloading video: " ++ e,
        strAppendAssoc "Error" " downloading video: " e⟩
  | trim i st et o =>
      exact ⟨" trimming video: " ++ e,
        strAppendAssoc "Error" " trimming video: " e⟩
  | merge a b o =>
      exact ⟨" merging videos: " ++ e,
        strAppendAssoc "Error" " merging videos: " e⟩
  | audioExtract i o =>
      exact ⟨" extracting audio: " ++ e,
        strAppendAssoc "Error" " extracting audio: " e⟩
  | audioTrim i st et o =>
      exact ⟨" trimming audio: " ++ e,
        strAppendAssoc "Error" " trimming audio: " e⟩
  | convert i f o =>
      exact ⟨" converting video format: " ++ e,
        strAppendAssoc "Error" " converting video format: " e⟩
  | watermark i w p o =>
      exact ⟨" adding watermark: " ++ e,
        strAppendAssoc "Error" " adding watermark: " e⟩
  | frames i iv o =>
      exact ⟨" extracting frames: " ++ e,
        strAppendAssoc "Error" " extracting frames: " e⟩
  | audioSpeed i f o =>
      exact ⟨" changing audio speed: " ++ e,
        strAppendAssoc "Error" " changing audio speed: " e⟩
  | videoSpeed i f o =>
      exact ⟨" changing video speed: " ++ e,
        strAppendAssoc "Error" " changing video speed: " e⟩
  | mute i o =>
      exact ⟨" muting video audio: " ++ e,
        strAppendAssoc "Error" " muting video audio: " e⟩
  | gif i st du f w o =>
      exact ⟨" creating GIF: " ++ gifAttrError,
        strAppendAssoc "Error" " creating GIF: " gifAttrError⟩

-- ===================== C4 =====================

/-- Counterexample to C4 as stated: on a transport failure the caller of
call_tool does not receive a synthetic failure outcome with reason channel
closed or malformed response; it receives the raised transport exception
itself (the Except.error branch, no delivered value). -/
theorem c4_counterexample :
    ((call_tool failSession "trim_video" []).2
        = Except.error "BrokenPipeError")
    ∧ (isDelivered (call_tool failSession "trim_video" []).2 = false)
    ∧ ((call_tool failSession "trim_video" []).2
        ≠ Except.ok "Failure: channel closed")
    ∧ ((call_tool failSession "trim_video" []).2
        ≠ Except.ok "Failure: malformed response") := by
  refine ⟨rfl, rfl, fun h => ?_, fun h => ?_⟩ <;>
    simp [call_tool, failSession] at h

/-- C4 amended: when the transport raises on an invocation, call_tool
propagates that exception unchanged to the caller; no synthetic channel
closed or malformed response outcome is constructed anywhere in the client
(the exception is only caught and printed by the generic handler of the
Driver loop). -/
theorem c4_transport_error_is_raised (session : Session) (tool_name : String)
    (kwargs : ArgMap) (e : String)
    (h : session { tool_name := tool_name, arguments := kwargs }
        = Except.error e) :
    (call_tool session tool_name kwargs).2 = Except.error e := by
  simp [call_tool, h]

/-- Witness for the amended C4 at a concrete failing transport. -/
theorem c4_witness :
    (call_tool failSession "trim_video" []).2
      = Except.error "BrokenPipeError" :=
  c4_transport_error_is_raised failSession "trim_video" [] "BrokenPipeError" rfl

-- ===================== C5 =====================

/-- Counterexample to C5 as stated: invoking the unregistered name
does_not_exist through the invocation path of the client produces one
transport call, not zero wire traffic. -/
theorem c5_counterexample :
    ((call_tool session0 "does_not_exist" []).1.length = 1)
    ∧ ((call_tool session0 "does_not_exist" []).1.length ≠ 0)
    ∧ ((call_tool session0 "does_not_exist" []).1
        = [{ tool_name := "does_not_exist", arguments := [] }]) := by
  refine ⟨rfl, by decide, rfl⟩

/-- C5 amended: the client performs no registry lookup before sending:
invoking a name absent from the discovered catalog (does_not_exist is not
among the registered tool names) still produces exactly one transport call;
any unknown-tool failure originates on the server side, after wire
traffic. -/
theorem c5_unknown_tool_still_sends (session : Session) (kwargs : ArgMap) :
    ((call_tool session "does_not_exist" kwargs).1.length = 1)
    ∧ ("does_not_exist" ∉ serverCatalog.map ToolDescriptor.name) :=
  ⟨rfl, by decide⟩

-- ===================== C6 =====================

/-- Claim C6: for every user intent processed by the interactive loop, a
failure raised while executing the agent or its tool proxies is caught,
printed as the text Error: followed by str(e), and the loop proceeds with
the remaining script; no tool-proxy failure terminates the loop. -/
theorem c6_agent_failure_caught (ev : LoopEvent) (rest : List LoopEvent)
    (e : String) (hA : ev.agentOutcome = Except.error e)
    (hQ : isQuitLine ev.line = false) :
    driverLoop (ev :: rest)
      = (("Error: " ++ e) :: (driverLoop rest).1,
         ev.sentInvocations + (driverLoop rest).2) := by
  simp [driverLoop, hQ, hA]

/-- Witness for C6: a raised ToolException is printed and the next intent is
still processed. -/
theorem c6_witness :
    driverLoop
      [{ line := "trim it", agentOutcome := Except.error "ToolException: boom",
         sentInvocations := 2 },
       { line := "next", agentOutcome := Except.ok "done",
         sentInvocations := 1 }]
      = ("Error: ToolException: boom"
          :: (driverLoop [{ line := "next", agentOutcome := Except.ok "done",
                            sentInvocations := 1 }]).1,
         2 + (driverLoop [{ line := "next", agentOutcome := Except.ok "done",
                            sentInvocations := 1 }]).2) :=
  c6_agent_failure_caught
    { line := "trim it", agentOutcome := Except.error "ToolException: boom",
      sentInvocations := 2 }
    [{ line := "next", agentOutcome := Except.ok "done", sentInvocations := 1 }]
    "ToolException: boom" rfl (by decide)

-- ===================== C7 =====================

/-- Counterexample to C7 as stated: merge_videos does not write only to the
output-directory entry named by its own output_name argument.  With an
existing output file named file_list.txt on disk, a merge_videos call whose
output_name is merged_video.mp4 overwrites that unrelated entry with its
manifest. -/
theorem c7_counterexample :
    (("file_list.txt" : String) ≠ "merged_video.mp4")
    ∧ (getFile diskBefore "file_list.txt" = some "precious")
    ∧ (getFile ((runOp (OpCall.merge "a.mp4" "b.mp4" "merged_video.mp4")
          (EngineOutcome.raised "ffmpeg failed") diskBefore).1) "file_list.txt"
        = some (fileListData "a.mp4" "b.mp4"))
    ∧ (fileListData "a.mp4" "b.mp4" ≠ "precious") := by
  refine ⟨by decide, rfl, by decide, by decide⟩

/-- C7 amended: every server operation modifies no output-directory entry
outside its write set; for every operation except merge_videos that write
set is exactly its declared output entry (output_name, or output_name dot
output_format for convert_video_format, or output_dir_name for
extract_frames), while the write set of merge_videos also contains the
manifest entry file_list.txt.  Consequently a second call with a distinct
output name leaves the output of the first call unchanged whenever the
names stay clear of file_list.txt (shown here for the cited trim_video),
and an output name colliding with an existing file is overwritten,
whatever was stored there before: overwrite is the policy. -/
theorem c7_frame_and_overwrite :
    (∀ (op : OpCall) (eng : EngineOutcome) (d : Disk) (n : String),
        n ∉ writeSet op → getFile ((runOp op eng d).1) n = getFile d n)
    ∧ (∀ (i st et o1 o2 : String) (eng : EngineOutcome) (d : Disk),
        o1 ≠ o2 →
        getFile ((runOp (OpCall.trim i st et o2) eng d).1) o1 = getFile d o1)
    ∧ (∀ (i st et o : String) (d : Disk),
        getFile ((runOp (OpCall.trim i st et o) EngineOutcome.ok d).1) o
          = some (engineData "trim" [i, st, et])) := by
  refine ⟨?_, ?_, ?_⟩
  · intro op eng d n hn
    cases op with
    | download u o =>
        simp only [writeSet, List.mem_singleton] at hn
        cases eng <;>
          simp [runOp, download_youtube_video, getFile, setFile, hn]
    | trim i st et o =>
        simp only [writeSet, List.mem_singleton] at hn
        cases eng <;> simp [runOp, trim_video, getFile, setFile, hn]
    | merge a b o =>
        simp only [writeSet, List.mem_cons, List.not_mem_nil, or_false] at hn
        push_neg at hn
        obtain ⟨h1, h2⟩ := hn
        cases eng <;>
          simp [runOp, merge_videos, getFile, setFile, removeFile, h1, h2]
    | audioExtract i o =>
        simp only [writeSet, List.mem_singleton] at hn
        cases eng <;> simp [runOp, extract_audio, getFile, setFile, hn]
    | audioTrim i st et o =>
        simp only [writeSet, List.mem_singleton] at hn
        cases eng <;> simp [runOp, trim_audio, getFile, setFile, hn]
    | convert i f o =>
        simp only [writeSet, List.mem_singleton] at hn
        cases eng <;>
          simp [runOp, convert_video_format, getFile, setFile, hn]
    | watermark i w p o =>
        simp only [writeSet, List.mem_singleton] at hn
        cases eng <;> simp [runOp, add_watermark, getFile, setFile, hn]
    | frames i iv o =>
        simp only [writeSet, List.mem_singleton] at hn
        cases hgd : d o with
        | none =>
            cases eng <;>
              simp [runOp, extract_frames, hgd, getFile, setFile, hn]
        | some c =>
            cases eng <;>
              simp [runOp, extract_frames, hgd, getFile, setFile, hn]
    | audioSpeed i f o =>
        simp only [writeSet, List.mem_singleton] at hn
        cases eng <;> simp [runOp, change_audio_speed, getFile, setFile, hn]
    | videoSpeed i f o =>
        simp only [writeSet, List.mem_singleton] at hn
        cases eng <;> simp [runOp, change_video_speed, getFile, setFile, hn]
    | mute i o =>
        simp only [writeSet, List.mem_singleton] at hn
        cases eng <;> simp [runOp, mute_video_audio, getFile, setFile, hn]
    | gif i st du f w o =>
        cases eng <;> rfl
  · intro i st et o1 o2 eng d h
    cases eng <;> simp [runOp, trim_video, getFile, setFile, h]
  · intro i st et o d
    simp [runOp, trim_video, getFile, setFile]

/-- Witness for the amended C7 at concrete calls: a merge leaves an
unrelated entry alone, a second trim with a distinct output name leaves the
first output untouched, and a trim over an occupied entry stores the new
engine output. -/
theorem c7_witness :
    (getFile ((runOp (OpCall.merge "a.mp4" "b.mp4" "m.mp4") EngineOutcome.ok
        diskBefore).1) "other.mp4" = getFile diskBefore "other.mp4")
    ∧ (getFile ((runOp (OpCall.trim "a.mp4" "1" "2" "y.mp4") EngineOutcome.ok
        emptyDisk).1) "x.mp4" = getFile emptyDisk "x.mp4")
    ∧ (getFile ((runOp (OpCall.trim "a.mp4" "1" "2" "file_list.txt")
        EngineOutcome.ok diskBefore).1) "file_list.txt"
        = some (engineData "trim" ["a.mp4", "1", "2"])) :=
  ⟨c7_frame_and_overwrite.1
      (OpCall.merge "a.mp4" "b.mp4" "m.mp4") EngineOutcome.ok diskBefore
      "other.mp4" (by decide),
   c7_frame_and_overwrite.2.1 "a.mp4" "1" "2" "x.mp4" "y.mp4"
      EngineOutcome.ok emptyDisk (by decide),
   c7_frame_and_overwrite.2.2 "a.mp4" "1" "2" "file_list.txt" diskBefore⟩

-- ===================== C8 =====================

/-- Claim C8 records the intended behaviour of create_gif; the code breaks
it: the fluent chain performs a dangling .filter attribute access followed
by an attribute lookup of filter on the resulting bound method, which
raises AttributeError inside the try block before any scale filter is
applied or any engine call runs.  Every call therefore returns the Error
creating GIF text, writes nothing, and never returns the path of a created
GIF; at the concrete failing input the result differs from the path the
docstring promises. -/
theorem c8_create_gif_never_applies_scale (i st du : String)
    (fps width : Int) (o : String) (eng : EngineOutcome) (d : Disk) :
    (create_gif i st du fps width o eng d
        = (d, "Error creating GIF: " ++ gifAttrError))
    ∧ ((create_gif "video.mp4" "00:00:10" "5" 10 480 "output.gif"
          EngineOutcome.ok emptyDisk).2 ≠ outputsPath "output.gif") :=
  ⟨rfl, by decide⟩

-- ===================== C9 =====================

/-- Claim C9: a line whose lower-cased form is quit, exit or q ends the loop
at once, dropping the whole remaining script, so no further Invocations are
sent (the invocation count from that point is zero); any other line does
not terminate the loop on that iteration — exactly one printed line is
added and processing continues.  The concrete conjuncts anchor the
case-insensitive reading of the tokens. -/
theorem c9_quit_tokens (ev : LoopEvent) (rest : List LoopEvent) :
    (isQuitLine ev.line = true → driverLoop (ev :: rest) = ([], 0))
    ∧ (isQuitLine ev.line = false →
        (driverLoop (ev :: rest)).1.length = (driverLoop rest).1.length + 1)
    ∧ (isQuitLine "QUIT" = true ∧ isQuitLine "Exit" = true
        ∧ isQuitLine "q" = true ∧ isQuitLine "eXiT" = true
        ∧ isQuitLine "Quit!" = false
        ∧ isQuitLine "trim the video" = false) := by
  refine ⟨fun h => by simp [driverLoop, h],
          fun h => by simp [driverLoop, h], by decide⟩

/-- Witness for C9: an upper-case QUIT ends the loop with zero further
Invocations even though the script continues, and an ordinary line keeps
the loop going. -/
theorem c9_witness :
    (driverLoop
        [{ line := "QUIT", agentOutcome := Except.ok "x", sentInvocations := 4 },
         { line := "more", agentOutcome := Except.ok "y", sentInvocations := 9 }]
      = ([], 0))
    ∧ ((driverLoop
          [{ line := "hello", agentOutcome := Except.ok "x",
             sentInvocations := 4 }]).1.length
        = (driverLoop []).1.length + 1) :=
  ⟨(c9_quit_tokens
      { line := "QUIT", agentOutcome := Except.ok "x", sentInvocations := 4 }
      [{ line := "more", agentOutcome := Except.ok "y",
         sentInvocations := 9 }]).1 (by decide),
   (c9_quit_tokens
      { line := "hello", agentOutcome := Except.ok "x", sentInvocations := 4 }
      []).2.1 (by decide)⟩

-- ===================== C10 =====================

/-- Claim C10: every merge_videos call first writes the manifest
file_list.txt into the shared output directory, overwriting whatever entry
of that name existed, whatever output_name the caller chose (the failing
run changes the disk exactly by that manifest write); the manifest is
deleted only on the success path, so after a failed call it remains on disk
with the manifest contents, while after a successful call it is gone. -/
theorem c10_manifest_lifecycle (i1 i2 o e : String) (d : Disk) :
    ((runOp (OpCall.merge i1 i2 o) (EngineOutcome.raised e) d).1
        = setFile d "file_list.txt" (fileListData i1 i2))
    ∧ (getFile ((runOp (OpCall.merge i1 i2 o) (EngineOutcome.raised e) d).1)
        "file_list.txt" = some (fileListData i1 i2))
    ∧ (getFile ((runOp (OpCall.merge i1 i2 o) EngineOutcome.ok d).1)
        "file_list.txt" = none) := by
  refine ⟨rfl, ?_, ?_⟩
  · simp [runOp, merge_videos, getFile, setFile]
  · simp [runOp, merge_videos, getFile, setFile, removeFile]
